import Mathlib

/-!
Verification of the QR code generator application (`qr_code_generator.py`).

The repository is a thin GUI wrapper around the external `qrcode` and PIL
libraries.  We embed the in-repo logic shallowly:

* `pyStrip` models Python's `str.strip()` (trim whitespace at both ends);
* `pySlice` models Python's `s[:n]` slicing;
* the external encoder call `qr.make_image(...)` is modelled as a pure
  constructor `PILImage.qrRender` recording exactly the parameters the
  in-repo code forwards to the library (the library itself is a mature
  external dependency, modelled as a total deterministic function of its
  parameters);
* PIL's `Image.resize(size, NEAREST)` is modelled as the pure constructor
  `PILImage.resizedNearest` (PIL's resize returns a fresh image and does not
  mutate its receiver);
* file writes and message boxes are made explicit as result values.

`QRCodeGenerator` and `QRCodeApp` mirror the two Python classes; the
`QRCodeApp extends QRCodeGenerator` structure mirrors the inheritance in the
source.  Methods become state-passing functions.
-/

/-- Whitespace characters removed by Python's `str.strip()` (ASCII subset). -/
def pyIsSpace (c : Char) : Bool :=
  c = ' ' || c = '\t' || c = '\n' || c = '\r' || c = '\x0b' || c = '\x0c'

/-- Strip leading and trailing whitespace from a list of characters. -/
def stripList (l : List Char) : List Char :=
  ((l.dropWhile pyIsSpace).reverse.dropWhile pyIsSpace).reverse

/-- Python's `s.strip()`: remove leading and trailing whitespace. -/
def pyStrip (s : String) : String := ⟨stripList s.data⟩

/-- Python's `s[:n]`: the first `n` characters of `s`. -/
def pySlice (s : String) (n : Nat) : String := ⟨s.data.take n⟩

/-- The `qrcode.constants.ERROR_CORRECT_*` constants (numerically 1, 0, 3, 2
in the library; only their identity matters to the in-repo code). -/
inductive ECConst where
  | ERROR_CORRECT_L
  | ERROR_CORRECT_M
  | ERROR_CORRECT_Q
  | ERROR_CORRECT_H
deriving DecidableEq, Repr

/-- The `ERROR_LEVELS` class attribute: the fixed four-entry lookup table
from human-readable labels to library constants (source lines 27-32). -/
def ERROR_LEVELS : List (String × ECConst) :=
  [("Low (7%)", ECConst.ERROR_CORRECT_L),
   ("Medium (15%)", ECConst.ERROR_CORRECT_M),
   ("Quartile (25%)", ECConst.ERROR_CORRECT_Q),
   ("High (30%)", ECConst.ERROR_CORRECT_H)]

/-- Python's `dict.__getitem__` / `dict.get` on `ERROR_LEVELS`: `none` models
a `KeyError` for `[]`, and the `.get(k, default)` form is `(… ).getD default`. -/
def ERROR_LEVELS_get (k : String) : Option ECConst :=
  (ERROR_LEVELS.find? (fun p => p.1 == k)).map Prod.snd

/-- Percentage of codewords that each error-correction constant lets the
symbol recover, per the QR standard; the same percentages appear verbatim in
the `ERROR_LEVELS` label strings of the source. -/
def correctablePercent : ECConst → Nat
  | ECConst.ERROR_CORRECT_L => 7
  | ECConst.ERROR_CORRECT_M => 15
  | ECConst.ERROR_CORRECT_Q => 25
  | ECConst.ERROR_CORRECT_H => 30

/-- Position of each level in the robustness ordering
Low < Medium < Quartile < High. -/
def levelRank : ECConst → Nat
  | ECConst.ERROR_CORRECT_L => 0
  | ECConst.ERROR_CORRECT_M => 1
  | ECConst.ERROR_CORRECT_Q => 2
  | ECConst.ERROR_CORRECT_H => 3

/-- The parameters the in-repo code forwards to the external encoder for one
`generate` call (`qrcode.QRCode(...)`, `add_data`, `make_image`). -/
structure QRParams where
  data : String
  error_correction : ECConst
  box_size : Int
  border : Int
  fill_color : String
  back_color : String
deriving DecidableEq, Repr

/-- A PIL bitmap: either the render the external encoder returns for the
given parameters, or the fresh image returned by `resize((w, h), NEAREST)`.
Equality of values models byte-for-byte equality of bitmaps. -/
inductive PILImage where
  | qrRender (params : QRParams)
  | resizedNearest (orig : PILImage) (w h : Int)
deriving DecidableEq, Repr

/-- The error-correction parameter recorded in a rendered bitmap (none for a
rescaled preview copy, which is no longer the encoder's direct output). -/
def PILImage.ecParam : PILImage → Option ECConst
  | PILImage.qrRender p => some p.error_correction
  | PILImage.resizedNearest _ _ _ => none

/-- The wrapper object `qr.make_image` returns (qrcode's `PilImage`): it has
`save` and exposes the underlying PIL bitmap via `get_image()`. -/
structure QRImage where
  img : PILImage
deriving DecidableEq, Repr

/-- The `get_image()` method of the wrapper. -/
def QRImage.get_image (q : QRImage) : PILImage := q.img

/-- State of a `QRCodeGenerator` instance (source lines 15-81). -/
structure QRCodeGenerator where
  box_size : Int
  border : Int
  error_correction : ECConst
  last_generated_image : Option QRImage
deriving DecidableEq, Repr

/-- `QRCodeGenerator.__init__(box_size, border, error_correction)` (source
lines 34-40): the label is looked up with
`ERROR_LEVELS.get(error_correction, ERROR_CORRECT_M)`. -/
def QRCodeGenerator.init (box_size border : Int) (error_correction : String) :
    QRCodeGenerator :=
  { box_size := box_size
    border := border
    error_correction := (ERROR_LEVELS_get error_correction).getD
      ECConst.ERROR_CORRECT_M
    last_generated_image := none }

/-- `QRCodeGenerator.generate(data, fill_color, back_color)` (source lines
42-69).  Returns the result (the image, or the `ValueError` message) together
with the post-state.  On `ValueError` nothing is assigned, so the post-state
is the input state. -/
def QRCodeGenerator.generate (g : QRCodeGenerator)
    (data fill_color back_color : String) :
    Except String QRImage × QRCodeGenerator :=
  if pyStrip data = "" then
    (Except.error "Please enter text or URL to generate QR code", g)
  else
    let img : QRImage :=
      ⟨PILImage.qrRender
        ⟨data, g.error_correction, g.box_size, g.border, fill_color,
         back_color⟩⟩
    (Except.ok img, { g with last_generated_image := some img })

/-- Outcome of `QRCodeGenerator.save(filepath)`: the result (`ValueError`
message on failure), the file writes performed (path paired with the image
written), and the post-state. -/
structure SaveOutcome where
  result : Except String Unit
  writes : List (String × QRImage)
  state : QRCodeGenerator
deriving Repr

/-- `QRCodeGenerator.save(filepath)` (source lines 71-81): raises
`ValueError` when no image was generated, otherwise writes the stored image
to `filepath`.  It assigns no attribute, so the state is unchanged. -/
def QRCodeGenerator.save (g : QRCodeGenerator) (filepath : String) :
    SaveOutcome :=
  match g.last_generated_image with
  | none => ⟨Except.error "No QR code generated yet", [], g⟩
  | some img => ⟨Except.ok (), [(filepath, img)], g⟩

/-- A tkinter message box shown to the user (`showwarning` / `showerror` /
`showinfo`). -/
inductive Dialog where
  | warning (title msg : String)
  | error (title msg : String)
  | info (title msg : String)
deriving DecidableEq, Repr

/-- Python's `str(KeyError(k))`: the repr of the missing key. -/
def keyErrorMessage (k : String) : String := "'" ++ k ++ "'"

/-- State of the `QRCodeApp` GUI (source lines 84-243).  The structure
extends `QRCodeGenerator`, mirroring the inheritance in the source; the extra
fields are the widget variables the handlers read and write. -/
structure QRCodeApp extends QRCodeGenerator where
  text_input : String
  error_var : String
  size_var : Int
  status_var : String
  photo : Option PILImage
deriving DecidableEq, Repr

/-- `QRCodeApp.__init__` (source lines 90-181): `super().__init__()` with the
default arguments, then the widget variables with their initial values. -/
def QRCodeApp.init : QRCodeApp :=
  { toQRCodeGenerator := QRCodeGenerator.init 10 4 "Medium (15%)"
    text_input := ""
    error_var := "Medium (15%)"
    size_var := 10
    status_var := "Ready"
    photo := none }

/-- `QRCodeApp._on_generate` (source lines 183-214).  Returns the new state
and the message boxes shown.  The handler strips the text widget content,
rejects empty input with a warning, then inside `try` assigns `box_size`,
looks the label up with `ERROR_LEVELS[...]` (a `KeyError` for unknown labels,
caught by the `except` clause), calls `generate`, resizes the returned bitmap
to 250x250 with nearest-neighbour resampling for the preview, and sets the
status line to the first 30 characters of the input followed by "...". -/
def QRCodeApp.on_generate (app : QRCodeApp) : QRCodeApp × List Dialog :=
  let data := pyStrip app.text_input
  if data = "" then
    (app, [Dialog.warning "Warning" "Please enter text or URL"])
  else
    let app1 := { app with box_size := app.size_var }
    match ERROR_LEVELS_get app.error_var with
    | none =>
      ({ app1 with status_var := "Error generating QR code" },
       [Dialog.error "Error" (keyErrorMessage app.error_var)])
    | some lvl =>
      let app2 := { app1 with error_correction := lvl }
      match QRCodeGenerator.generate app2.toQRCodeGenerator data "black"
          "white" with
      | (Except.error msg, g) =>
        ({ app2 with toQRCodeGenerator := g,
                     status_var := "Error generating QR code" },
         [Dialog.error "Error" msg])
      | (Except.ok qr_image, g) =>
        let resized := PILImage.resizedNearest qr_image.get_image 250 250
        ({ app2 with toQRCodeGenerator := g,
                     photo := some resized,
                     status_var :=
                       "Generated QR code for: " ++
                         pySlice data 30 ++ "..." },
         [])

/-- `QRCodeApp._on_save` (source lines 216-239).  `filepath` is the path the
file dialog returns (`""` models a cancelled dialog, which Python's
`if filepath:` skips).  Returns the new state, the message boxes shown, and
the file writes performed. -/
def QRCodeApp.on_save (app : QRCodeApp) (filepath : String) :
    QRCodeApp × List Dialog × List (String × QRImage) :=
  match app.last_generated_image with
  | none =>
    (app, [Dialog.warning "Warning" "Generate a QR code first before saving"],
     [])
  | some _ =>
    if filepath = "" then (app, [], [])
    else
      match QRCodeGenerator.save app.toQRCodeGenerator filepath with
      | ⟨Except.ok _, writes, g⟩ =>
        ({ app with toQRCodeGenerator := g,
                    status_var := "Saved to: " ++ filepath },
         [Dialog.info "Success" ("QR code saved to:\n" ++ filepath)], writes)
      | ⟨Except.error msg, writes, g⟩ =>
        ({ app with toQRCodeGenerator := g },
         [Dialog.error "Error" ("Could not save file: " ++ msg)], writes)

/-- One user-level operation on a `QRCodeGenerator` instance. -/
inductive Op where
  | genOp (data fill back : String)
  | saveOp (filepath : String)
deriving DecidableEq, Repr

/-- The state after one operation. -/
def stepOp (g : QRCodeGenerator) : Op → QRCodeGenerator
  | Op.genOp d f b => (QRCodeGenerator.generate g d f b).2
  | Op.saveOp fp => (QRCodeGenerator.save g fp).state

/-- The state after a sequence of operations. -/
def runOps (g : QRCodeGenerator) : List Op → QRCodeGenerator
  | [] => g
  | op :: rest => runOps (stepOp g op) rest

/-- The image an operation returns when it is a successful `generate`. -/
def genReturn (g : QRCodeGenerator) : Op → Option QRImage
  | Op.genOp d f b =>
    match (QRCodeGenerator.generate g d f b).1 with
    | Except.ok i => some i
    | Except.error _ => none
  | Op.saveOp _ => none

/-- The image returned by the most recent successful `generate` in a
sequence of operations, if any. -/
def lastSuccessfulReturn (g : QRCodeGenerator) : List Op → Option QRImage
  | [] => none
  | op :: rest =>
    match lastSuccessfulReturn (stepOp g op) rest with
    | some i => some i
    | none => genReturn g op

/-- The first option when present, the second otherwise. -/
def orDefault (a b : Option QRImage) : Option QRImage :=
  match a with
  | some i => some i
  | none => b

/-! Lemmas about `pyStrip`. -/

/-- Dropping a prefix twice is the same as dropping it once. -/
theorem dropWhile_dropWhile (p : Char → Bool) (l : List Char) :
    (l.dropWhile p).dropWhile p = l.dropWhile p := by
  induction l with
  | nil => rfl
  | cons a t ih =>
    by_cases h : p a
    · rw [List.dropWhile_cons_of_pos h, ih]
    · rw [List.dropWhile_cons_of_neg h, List.dropWhile_cons_of_neg h]

/-- `dropWhile` removes an initial segment: the original list is some prefix
followed by the result. -/
theorem dropWhile_eq_append (p : Char → Bool) (l : List Char) :
    ∃ t, l = t ++ l.dropWhile p := by
  induction l with
  | nil => exact ⟨[], rfl⟩
  | cons a t ih =>
    by_cases h : p a
    · obtain ⟨u, hu⟩ := ih
      exact ⟨a :: u, by rw [List.dropWhile_cons_of_pos h, List.cons_append,
        ← hu]⟩
    · exact ⟨[], by rw [List.dropWhile_cons_of_neg h, List.nil_append]⟩

/-- The result of `dropWhile` is empty or starts with an element on which the
predicate fails. -/
theorem dropWhile_head_false (p : Char → Bool) (l : List Char) :
    l.dropWhile p = [] ∨
      ∃ a t, l.dropWhile p = a :: t ∧ p a = false := by
  induction l with
  | nil => exact Or.inl rfl
  | cons a t ih =>
    by_cases h : p a
    · rw [List.dropWhile_cons_of_pos h]; exact ih
    · exact Or.inr ⟨a, t, List.dropWhile_cons_of_neg h,
        Bool.eq_false_iff.mpr h⟩

/-- The stripped list is empty or starts with a non-whitespace character, so
stripping its front again changes nothing. -/
theorem stripList_dropWhile (l : List Char) :
    (stripList l).dropWhile pyIsSpace = stripList l := by
  unfold stripList
  rcases h :
      ((l.dropWhile pyIsSpace).reverse.dropWhile pyIsSpace).reverse with
    _ | ⟨a, s⟩
  · rfl
  · have hpa : pyIsSpace a = false := by
      obtain ⟨t, ht⟩ :=
        dropWhile_eq_append pyIsSpace (l.dropWhile pyIsSpace).reverse
      have hxeq : l.dropWhile pyIsSpace =
          ((l.dropWhile pyIsSpace).reverse.dropWhile pyIsSpace).reverse
            ++ t.reverse := by
        have h2 := congrArg List.reverse ht
        rwa [List.reverse_reverse, List.reverse_append] at h2
      rw [h, List.cons_append] at hxeq
      rcases dropWhile_head_false pyIsSpace l with hnil | ⟨b, u, hbu, hpb⟩
      · rw [hnil] at hxeq
        exact absurd hxeq (by simp)
      · rw [hbu] at hxeq
        injection hxeq with hba _
        rwa [← hba]
    rw [List.dropWhile_cons_of_neg (by simp [hpa])]

/-- Stripping whitespace from both ends is idempotent. -/
theorem stripList_idem (l : List Char) :
    stripList (stripList l) = stripList l := by
  have h2 : (stripList l).reverse.dropWhile pyIsSpace
      = (stripList l).reverse := by
    unfold stripList
    rw [List.reverse_reverse]
    exact dropWhile_dropWhile pyIsSpace _
  calc stripList (stripList l)
      = (((stripList l).dropWhile pyIsSpace).reverse.dropWhile
          pyIsSpace).reverse := rfl
    _ = ((stripList l).reverse.dropWhile pyIsSpace).reverse := by
        rw [stripList_dropWhile]
    _ = ((stripList l).reverse).reverse := by rw [h2]
    _ = stripList l := List.reverse_reverse _

/-- Python's `strip` is idempotent: the handler strips the widget text and
`generate` strips its argument again, with no further effect. -/
theorem pyStrip_idem (s : String) : pyStrip (pyStrip s) = pyStrip s :=
  congrArg String.mk (stripList_idem s.data)

/-! Helper lemmas about the operations. -/

/-- A successful `generate` call determines the returned image and the
post-state: the image records exactly the forwarded parameters, and the
post-state stores it. -/
theorem generate_ok_elim {g g1 : QRCodeGenerator} {data fill back : String}
    {img : QRImage}
    (h : QRCodeGenerator.generate g data fill back = (Except.ok img, g1)) :
    img = ⟨PILImage.qrRender
      ⟨data, g.error_correction, g.box_size, g.border, fill, back⟩⟩ ∧
    g1 = { g with last_generated_image := some img } := by
  unfold QRCodeGenerator.generate at h
  by_cases hd : pyStrip data = ""
  · rw [if_pos hd] at h
    exact absurd (congrArg Prod.fst h) (by simp)
  · rw [if_neg hd] at h
    have h1 := congrArg Prod.fst h
    have h2 := congrArg Prod.snd h
    dsimp only at h1 h2
    injection h1 with h3
    constructor
    · exact h3.symm
    · rw [← h2, ← h3]

/-- The stored image after one operation: the image a successful `generate`
returned, or the previous stored image. -/
theorem stepOp_last (g : QRCodeGenerator) (op : Op) :
    (stepOp g op).last_generated_image
      = orDefault (genReturn g op) g.last_generated_image := by
  cases op with
  | genOp d f b =>
    by_cases hd : pyStrip d = "" <;>
      simp [stepOp, genReturn, QRCodeGenerator.generate, orDefault, hd]
  | saveOp fp =>
    cases h : g.last_generated_image with
    | none => simp [stepOp, genReturn, QRCodeGenerator.save, orDefault, h]
    | some img => simp [stepOp, genReturn, QRCodeGenerator.save, orDefault, h]

/-- The stored image after a run of operations: the most recent successful
`generate` result, or the initial stored image. -/
theorem runOps_last (g : QRCodeGenerator) (ops : List Op) :
    (runOps g ops).last_generated_image
      = orDefault (lastSuccessfulReturn g ops) g.last_generated_image := by
  induction ops generalizing g with
  | nil => rfl
  | cons op rest ih =>
    unfold runOps lastSuccessfulReturn
    rw [ih (stepOp g op)]
    cases lastSuccessfulReturn (stepOp g op) rest with
    | some i => rfl
    | none =>
      unfold orDefault
      exact stepOp_last g op

/-- A `generate` click with non-empty input and a label from the table: the
handler updates `box_size` and `error_correction` from the widgets, stores
the freshly rendered image, shows the 250x250 nearest-neighbour preview,
sets the truncated status line, and opens no message box. -/
theorem on_generate_success_eq (app : QRCodeApp) (lvl : ECConst)
    (h1 : pyStrip app.text_input ≠ "")
    (h2 : ERROR_LEVELS_get app.error_var = some lvl) :
    QRCodeApp.on_generate app =
      ({ app with
           box_size := app.size_var
           error_correction := lvl
           last_generated_image :=
             some ⟨PILImage.qrRender
               ⟨pyStrip app.text_input, lvl, app.size_var, app.border,
                "black", "white"⟩⟩
           photo := some (PILImage.resizedNearest
             (PILImage.qrRender
               ⟨pyStrip app.text_input, lvl, app.size_var, app.border,
                "black", "white"⟩) 250 250)
           status_var := "Generated QR code for: " ++
             pySlice (pyStrip app.text_input) 30 ++ "..." },
       []) := by
  have h1' : pyStrip (pyStrip app.text_input) ≠ "" := by
    rw [pyStrip_idem]
    exact h1
  unfold QRCodeApp.on_generate
  rw [if_neg h1, h2]
  dsimp only
  unfold QRCodeGenerator.generate
  rw [if_neg h1']
  rfl

/-! Claim theorems. -/

/-- C1: for every string that is non-empty after trimming whitespace and
every valid parameter combination (an error-correction label from the
four-entry table, `box_size` in `[5, 20]`), `generate` succeeds and its
result is a non-null image (which is also stored). -/
theorem generate_ok_of_nonempty (box border : Int)
    (lbl data fill back : String) (hbox : 5 ≤ box ∧ box ≤ 20)
    (hlbl : (ERROR_LEVELS_get lbl).isSome = true)
    (hdata : pyStrip data ≠ "") :
    ∃ img g1,
      QRCodeGenerator.generate (QRCodeGenerator.init box border lbl) data
          fill back = (Except.ok img, g1) ∧
      g1.last_generated_image = some img := by
  unfold QRCodeGenerator.generate
  rw [if_neg hdata]
  exact ⟨_, _, rfl, rfl⟩

/-- C1 witness: a concrete valid call succeeds. -/
theorem generate_ok_of_nonempty_witness :
    (5 ≤ (10 : Int) ∧ (10 : Int) ≤ 20) ∧
    (ERROR_LEVELS_get "Low (7%)").isSome = true ∧
    pyStrip "hello" ≠ "" ∧
    ∃ img g1,
      QRCodeGenerator.generate (QRCodeGenerator.init 10 4 "Low (7%)") "hello"
          "black" "white" = (Except.ok img, g1) ∧
      g1.last_generated_image = some img :=
  ⟨⟨by decide, by decide⟩, by decide, by decide,
   generate_ok_of_nonempty 10 4 "Low (7%)" "hello" "black" "white"
     ⟨by decide, by decide⟩ (by decide) (by decide)⟩

/-- C2: for every input that is empty or whitespace only, `generate` fails
with the `ValueError` message and the whole state — in particular the stored
last-generated image, whatever it was, including `none` — is unchanged. -/
theorem generate_empty_input_rejected (g : QRCodeGenerator)
    (data fill back : String) (hdata : pyStrip data = "") :
    QRCodeGenerator.generate g data fill back
      = (Except.error "Please enter text or URL to generate QR code", g) ∧
    (QRCodeGenerator.generate g data fill back).2.last_generated_image
      = g.last_generated_image := by
  have h : QRCodeGenerator.generate g data fill back
      = (Except.error "Please enter text or URL to generate QR code", g) := by
    unfold QRCodeGenerator.generate
    rw [if_pos hdata]
  exact ⟨h, by rw [h]⟩

/-- C2 witness: a whitespace-only input fails and a previously stored image
survives the failed call. -/
theorem generate_empty_input_rejected_witness :
    QRCodeGenerator.generate
        { box_size := 10, border := 4,
          error_correction := ECConst.ERROR_CORRECT_M,
          last_generated_image := some ⟨PILImage.qrRender
            ⟨"old", ECConst.ERROR_CORRECT_M, 10, 4, "black", "white"⟩⟩ }
        "   " "black" "white"
      = (Except.error "Please enter text or URL to generate QR code",
         { box_size := 10, border := 4,
           error_correction := ECConst.ERROR_CORRECT_M,
           last_generated_image := some ⟨PILImage.qrRender
             ⟨"old", ECConst.ERROR_CORRECT_M, 10, 4, "black", "white"⟩⟩ }) :=
  (generate_empty_input_rejected _ "   " "black" "white" (by decide)).1

/-- C3: when no image has ever been generated, `save` fails with the
precondition message and performs no file write, and the GUI save handler
shows a warning box, performs no write, and leaves the state unchanged
(the handler returns normally, so the application does not crash). -/
theorem save_without_image_no_write (g : QRCodeGenerator) (app : QRCodeApp)
    (fp fp2 : String) (hg : g.last_generated_image = none)
    (ha : app.last_generated_image = none) :
    QRCodeGenerator.save g fp
      = ⟨Except.error "No QR code generated yet", [], g⟩ ∧
    QRCodeApp.on_save app fp2
      = (app,
         [Dialog.warning "Warning" "Generate a QR code first before saving"],
         []) := by
  constructor
  · unfold QRCodeGenerator.save
    rw [hg]
  · unfold QRCodeApp.on_save
    rw [ha]

/-- C3 witness: saving on the freshly initialised state fails with the
warning and writes nothing. -/
theorem save_without_image_no_write_witness :
    QRCodeGenerator.save (QRCodeGenerator.init 10 4 "Medium (15%)") "out.png"
      = ⟨Except.error "No QR code generated yet", [],
         QRCodeGenerator.init 10 4 "Medium (15%)"⟩ ∧
    QRCodeApp.on_save QRCodeApp.init "out.png"
      = (QRCodeApp.init,
         [Dialog.warning "Warning" "Generate a QR code first before saving"],
         []) :=
  save_without_image_no_write (QRCodeGenerator.init 10 4 "Medium (15%)")
    QRCodeApp.init "out.png" "out.png" rfl rfl

/-- C7: every successful `generate` stores the produced image, overwriting
any previously stored one; a subsequent `save` writes exactly that stored
image; and `save` — succeeding or failing — never changes the state. -/
theorem generate_stores_save_writes_stored (g g1 : QRCodeGenerator)
    (data fill back fp : String) (img : QRImage)
    (h : QRCodeGenerator.generate g data fill back = (Except.ok img, g1)) :
    g1.last_generated_image = some img ∧
    QRCodeGenerator.save g1 fp = ⟨Except.ok (), [(fp, img)], g1⟩ ∧
    ∀ g2 : QRCodeGenerator, (QRCodeGenerator.save g2 fp).state = g2 := by
  obtain ⟨-, hg1⟩ := generate_ok_elim h
  subst hg1
  refine ⟨rfl, rfl, ?_⟩
  intro g2
  unfold QRCodeGenerator.save
  cases g2.last_generated_image <;> rfl

/-- C7 witness at a concrete generate-then-save run, plus a concrete failed
save leaving its state unchanged. -/
theorem generate_stores_save_writes_stored_witness :
    ({ box_size := 10, border := 4,
       error_correction := ECConst.ERROR_CORRECT_M,
       last_generated_image := some ⟨PILImage.qrRender
         ⟨"hi", ECConst.ERROR_CORRECT_M, 10, 4, "black", "white"⟩⟩ }
      : QRCodeGenerator).last_generated_image
      = some ⟨PILImage.qrRender
          ⟨"hi", ECConst.ERROR_CORRECT_M, 10, 4, "black", "white"⟩⟩ ∧
    (QRCodeGenerator.save (QRCodeGenerator.init 10 4 "Medium (15%)")
        "out.png").state
      = QRCodeGenerator.init 10 4 "Medium (15%)" :=
  ⟨(generate_stores_save_writes_stored
      (QRCodeGenerator.init 10 4 "Medium (15%)") _ "hi" "black" "white"
      "out.png" _ rfl).1,
   (generate_stores_save_writes_stored
      (QRCodeGenerator.init 10 4 "Medium (15%)") _ "hi" "black" "white"
      "out.png" _ rfl).2.2 (QRCodeGenerator.init 10 4 "Medium (15%)")⟩

/-- C10: the image a successful `generate` returns is exactly the image it
stores as the last-generated image. -/
theorem generate_returns_stored_image (g g1 : QRCodeGenerator)
    (data fill back : String) (img : QRImage)
    (h : QRCodeGenerator.generate g data fill back = (Except.ok img, g1)) :
    g1.last_generated_image = some img := by
  obtain ⟨-, hg1⟩ := generate_ok_elim h
  rw [hg1]

/-- C10 witness at a concrete call. -/
theorem generate_returns_stored_image_witness :
    ({ box_size := 10, border := 4,
       error_correction := ECConst.ERROR_CORRECT_M,
       last_generated_image := some ⟨PILImage.qrRender
         ⟨"hi", ECConst.ERROR_CORRECT_M, 10, 4, "black", "white"⟩⟩ }
      : QRCodeGenerator).last_generated_image
      = some ⟨PILImage.qrRender
          ⟨"hi", ECConst.ERROR_CORRECT_M, 10, 4, "black", "white"⟩⟩ :=
  generate_returns_stored_image (QRCodeGenerator.init 10 4 "Medium (15%)")
    _ "hi" "black" "white" _ rfl

/-- C5: for the same input text, choosing a higher level in the robustness
ordering Low < Medium < Quartile < High never decreases the number of
correctable errors encoded in the error-correction parameter forwarded to
the external library. -/
theorem error_level_robustness_monotone (g : QRCodeGenerator)
    (l1 l2 : ECConst) (data fill back : String)
    (hrank : levelRank l1 ≤ levelRank l2) (hdata : pyStrip data ≠ "") :
    ∃ i1 i2 : QRImage,
      (QRCodeGenerator.generate { g with error_correction := l1 } data fill
          back).1 = Except.ok i1 ∧
      (QRCodeGenerator.generate { g with error_correction := l2 } data fill
          back).1 = Except.ok i2 ∧
      i1.img.ecParam = some l1 ∧ i2.img.ecParam = some l2 ∧
      correctablePercent l1 ≤ correctablePercent l2 := by
  refine ⟨⟨PILImage.qrRender ⟨data, l1, g.box_size, g.border, fill, back⟩⟩,
          ⟨PILImage.qrRender ⟨data, l2, g.box_size, g.border, fill, back⟩⟩,
          ?_, ?_, rfl, rfl, ?_⟩
  · unfold QRCodeGenerator.generate
    rw [if_neg hdata]
  · unfold QRCodeGenerator.generate
    rw [if_neg hdata]
  · revert hrank
    cases l1 <;> cases l2 <;> decide

/-- C5 witness at Low versus High for a concrete text. -/
theorem error_level_robustness_monotone_witness :
    ∃ i1 i2 : QRImage,
      (QRCodeGenerator.generate
          { QRCodeGenerator.init 10 4 "Medium (15%)" with
              error_correction := ECConst.ERROR_CORRECT_L } "hi" "black"
          "white").1 = Except.ok i1 ∧
      (QRCodeGenerator.generate
          { QRCodeGenerator.init 10 4 "Medium (15%)" with
              error_correction := ECConst.ERROR_CORRECT_H } "hi" "black"
          "white").1 = Except.ok i2 ∧
      i1.img.ecParam = some ECConst.ERROR_CORRECT_L ∧
      i2.img.ecParam = some ECConst.ERROR_CORRECT_H ∧
      correctablePercent ECConst.ERROR_CORRECT_L
        ≤ correctablePercent ECConst.ERROR_CORRECT_H :=
  error_level_robustness_monotone (QRCodeGenerator.init 10 4 "Medium (15%)")
    ECConst.ERROR_CORRECT_L ECConst.ERROR_CORRECT_H "hi" "black" "white"
    (by decide) (by decide)

/-- A `generate` click with non-empty input and a label outside the table:
the `dict[...]` lookup raises a `KeyError`, which the handler catches after
having already updated `box_size`; it shows the `KeyError` text as an error
dialog, sets the failure status, and changes nothing else. -/
theorem on_generate_keyerror_eq (app : QRCodeApp)
    (h1 : pyStrip app.text_input ≠ "")
    (h2 : ERROR_LEVELS_get app.error_var = none) :
    QRCodeApp.on_generate app =
      ({ app with box_size := app.size_var,
                  status_var := "Error generating QR code" },
       [Dialog.error "Error" (keyErrorMessage app.error_var)]) := by
  unfold QRCodeApp.on_generate
  rw [if_neg h1, h2]

/-- C4 counterexample: for the concrete label "Bogus", which is not in the
table, the generate handler does not map it to the Medium level: the level
in force stays High, no image is generated, and the `KeyError` is reported
as an error dialog. -/
theorem form_controller_unknown_label_not_medium :
    (QRCodeApp.on_generate
        { QRCodeApp.init with
            text_input := "hi"
            error_var := "Bogus"
            error_correction := ECConst.ERROR_CORRECT_H }).1.error_correction
      ≠ ECConst.ERROR_CORRECT_M ∧
    (QRCodeApp.on_generate
        { QRCodeApp.init with
            text_input := "hi"
            error_var := "Bogus"
            error_correction := ECConst.ERROR_CORRECT_H }).1.error_correction
      = ECConst.ERROR_CORRECT_H ∧
    (QRCodeApp.on_generate
        { QRCodeApp.init with
            text_input := "hi"
            error_var := "Bogus"
            error_correction := ECConst.ERROR_CORRECT_H
        }).1.last_generated_image = none ∧
    (QRCodeApp.on_generate
        { QRCodeApp.init with
            text_input := "hi"
            error_var := "Bogus"
            error_correction := ECConst.ERROR_CORRECT_H }).2
      = [Dialog.error "Error" "'Bogus'"] := by
  decide

/-- C4 amended: both lookups go through the fixed four-entry table, and a
known label is mapped to its level by the constructor and by the generate
handler; but only the constructor defaults an unknown label to Medium —
in the generate handler an unknown label raises a `KeyError` that is caught
and shown as an error dialog, leaving the error-correction level unchanged
rather than defaulting it to Medium. -/
theorem error_level_lookup_behavior (box border : Int) (lbl : String)
    (appA appB : QRCodeApp) (lvl : ECConst)
    (hlbl : ERROR_LEVELS_get lbl = none)
    (hA : ERROR_LEVELS_get appA.error_var = some lvl)
    (hAt : pyStrip appA.text_input ≠ "")
    (hB : ERROR_LEVELS_get appB.error_var = none)
    (hBt : pyStrip appB.text_input ≠ "") :
    (QRCodeGenerator.init box border lbl).error_correction
      = ECConst.ERROR_CORRECT_M ∧
    (QRCodeGenerator.init box border appA.error_var).error_correction
      = lvl ∧
    (QRCodeApp.on_generate appA).1.error_correction = lvl ∧
    (QRCodeApp.on_generate appB).1.error_correction
      = appB.error_correction ∧
    (QRCodeApp.on_generate appB).2
      = [Dialog.error "Error" (keyErrorMessage appB.error_var)] := by
  refine ⟨?_, ?_, ?_, ?_, ?_⟩
  · unfold QRCodeGenerator.init
    rw [hlbl]
    rfl
  · unfold QRCodeGenerator.init
    rw [hA]
    rfl
  · rw [on_generate_success_eq appA lvl hAt hA]
  · rw [on_generate_keyerror_eq appB hBt hB]
  · rw [on_generate_keyerror_eq appB hBt hB]

/-- C4 amended witness at the concrete labels "Quartile (25%)" (known) and
"Bogus" (unknown). -/
theorem error_level_lookup_behavior_witness :
    (QRCodeGenerator.init 7 2 "Bogus").error_correction
      = ECConst.ERROR_CORRECT_M ∧
    (QRCodeGenerator.init 7 2 "Quartile (25%)").error_correction
      = ECConst.ERROR_CORRECT_Q ∧
    (QRCodeApp.on_generate
        { QRCodeApp.init with
            text_input := "hi"
            error_var := "Quartile (25%)" }).1.error_correction
      = ECConst.ERROR_CORRECT_Q ∧
    (QRCodeApp.on_generate
        { QRCodeApp.init with
            text_input := "hi"
            error_var := "Bogus"
            error_correction := ECConst.ERROR_CORRECT_H }).1.error_correction
      = ({ QRCodeApp.init with
            text_input := "hi"
            error_var := "Bogus"
            error_correction := ECConst.ERROR_CORRECT_H }
          : QRCodeApp).error_correction ∧
    (QRCodeApp.on_generate
        { QRCodeApp.init with
            text_input := "hi"
            error_var := "Bogus"
            error_correction := ECConst.ERROR_CORRECT_H }).2
      = [Dialog.error "Error"
          (keyErrorMessage ({ QRCodeApp.init with
              text_input := "hi"
              error_var := "Bogus"
              error_correction := ECConst.ERROR_CORRECT_H }
            : QRCodeApp).error_var)] :=
  error_level_lookup_behavior 7 2 "Bogus"
    { QRCodeApp.init with
        text_input := "hi"
        error_var := "Quartile (25%)" }
    { QRCodeApp.init with
        text_input := "hi"
        error_var := "Bogus"
        error_correction := ECConst.ERROR_CORRECT_H }
    ECConst.ERROR_CORRECT_Q (by decide) (by decide) (by decide) (by decide)
    (by decide)

/-- C6: rescaling the generated bitmap for the 250x250 preview never mutates
or replaces the stored last-generated image: after a successful generate
click the stored image is the original render (not the resized copy shown in
the preview), and a subsequent save writes exactly that original unscaled
image. -/
theorem preview_rescale_preserves_stored_image (app : QRCodeApp)
    (lvl : ECConst) (fp : String) (h1 : pyStrip app.text_input ≠ "")
    (h2 : ERROR_LEVELS_get app.error_var = some lvl) (hfp : fp ≠ "") :
    ∃ orig : QRImage,
      orig.img = PILImage.qrRender
        ⟨pyStrip app.text_input, lvl, app.size_var, app.border, "black",
         "white"⟩ ∧
      (QRCodeApp.on_generate app).1.last_generated_image = some orig ∧
      (QRCodeApp.on_generate app).1.photo
        = some (PILImage.resizedNearest orig.img 250 250) ∧
      (QRCodeApp.on_generate app).1.photo ≠ some orig.img ∧
      (QRCodeApp.on_save (QRCodeApp.on_generate app).1 fp).2.2
        = [(fp, orig)] := by
  refine ⟨⟨PILImage.qrRender ⟨pyStrip app.text_input, lvl, app.size_var,
    app.border, "black", "white"⟩⟩, rfl, ?_, ?_, ?_, ?_⟩
  · rw [on_generate_success_eq app lvl h1 h2]
  · rw [on_generate_success_eq app lvl h1 h2]
  · rw [on_generate_success_eq app lvl h1 h2]
    simp
  · rw [on_generate_success_eq app lvl h1 h2]
    simp [QRCodeApp.on_save, QRCodeGenerator.save, hfp]

/-- C6 witness at a concrete generate click followed by a save. -/
theorem preview_rescale_preserves_stored_image_witness :
    ∃ orig : QRImage,
      orig.img = PILImage.qrRender
        ⟨pyStrip " hi ", ECConst.ERROR_CORRECT_M, 10, 4, "black", "white"⟩ ∧
      (QRCodeApp.on_generate
          { QRCodeApp.init with
              text_input := " hi " }).1.last_generated_image = some orig ∧
      (QRCodeApp.on_generate
          { QRCodeApp.init with text_input := " hi " }).1.photo
        = some (PILImage.resizedNearest orig.img 250 250) ∧
      (QRCodeApp.on_generate
          { QRCodeApp.init with text_input := " hi " }).1.photo
        ≠ some orig.img ∧
      (QRCodeApp.on_save
          (QRCodeApp.on_generate
            { QRCodeApp.init with text_input := " hi " }).1 "out.png").2.2
        = [("out.png", orig)] :=
  preview_rescale_preserves_stored_image
    { QRCodeApp.init with text_input := " hi " } ECConst.ERROR_CORRECT_M
    "out.png" (by decide) (by decide) (by decide)

/-- C8: after every successful generate from the GUI the status message is
the fixed prefix, then exactly the first 30 characters of the (stripped)
input — a prefix of the input of length at most 30 — then the constant
"...", which is appended whether or not anything was cut off, so nothing
indicates truncation. -/
theorem status_truncates_input_to_30 (app : QRCodeApp) (lvl : ECConst)
    (h1 : pyStrip app.text_input ≠ "")
    (h2 : ERROR_LEVELS_get app.error_var = some lvl) :
    (QRCodeApp.on_generate app).1.status_var
      = "Generated QR code for: " ++ pySlice (pyStrip app.text_input) 30
          ++ "..." ∧
    (pySlice (pyStrip app.text_input) 30).data.length ≤ 30 ∧
    (pySlice (pyStrip app.text_input) 30).data
        ++ (pyStrip app.text_input).data.drop 30
      = (pyStrip app.text_input).data := by
  refine ⟨?_, ?_, ?_⟩
  · rw [on_generate_success_eq app lvl h1 h2]
  · show ((pyStrip app.text_input).data.take 30).length ≤ 30
    rw [List.length_take]
    exact min_le_left _ _
  · exact List.take_append_drop 30 (pyStrip app.text_input).data

/-- C8 witness on a 43-character input: the status carries exactly the first
30 characters. -/
theorem status_truncates_input_to_30_witness :
    (QRCodeApp.on_generate
        { QRCodeApp.init with
            text_input :=
              "The quick brown fox jumps over the lazy dog" }).1.status_var
      = "Generated QR code for: " ++
          pySlice (pyStrip "The quick brown fox jumps over the lazy dog") 30
          ++ "..." ∧
    (pySlice (pyStrip "The quick brown fox jumps over the lazy dog")
        30).data.length ≤ 30 :=
  ⟨(status_truncates_input_to_30
      { QRCodeApp.init with
          text_input := "The quick brown fox jumps over the lazy dog" }
      ECConst.ERROR_CORRECT_M (by decide) (by decide)).1,
   (status_truncates_input_to_30
      { QRCodeApp.init with
          text_input := "The quick brown fox jumps over the lazy dog" }
      ECConst.ERROR_CORRECT_M (by decide) (by decide)).2.1⟩

/-- C9: the stored last-generated image starts out as none; after any
sequence of generate and save operations it is exactly the image returned by
the most recent successful generate (none when there has been none); and no
single operation ever resets a non-none stored image to none. -/
theorem last_image_invariant (box border : Int) (lbl : String)
    (ops : List Op) :
    (QRCodeGenerator.init box border lbl).last_generated_image = none ∧
    (runOps (QRCodeGenerator.init box border lbl) ops).last_generated_image
      = lastSuccessfulReturn (QRCodeGenerator.init box border lbl) ops ∧
    ∀ (g : QRCodeGenerator) (op : Op),
      g.last_generated_image ≠ none →
      (stepOp g op).last_generated_image ≠ none := by
  refine ⟨rfl, ?_, ?_⟩
  · rw [runOps_last]
    cases lastSuccessfulReturn (QRCodeGenerator.init box border lbl) ops <;>
      rfl
  · intro g op hne
    rw [stepOp_last]
    cases h : genReturn g op with
    | none => exact hne
    | some i => exact fun hcon => Option.noConfusion hcon

/-- C9 witness: a concrete failed generate, successful generate, save run,
and a concrete non-none state surviving a save. -/
theorem last_image_invariant_witness :
    (runOps (QRCodeGenerator.init 10 4 "Low (7%)")
        [Op.genOp "  " "black" "white", Op.genOp "hi" "black" "white",
         Op.saveOp "a.png"]).last_generated_image
      = lastSuccessfulReturn (QRCodeGenerator.init 10 4 "Low (7%)")
          [Op.genOp "  " "black" "white", Op.genOp "hi" "black" "white",
           Op.saveOp "a.png"] ∧
    (stepOp
        { box_size := 10, border := 4,
          error_correction := ECConst.ERROR_CORRECT_L,
          last_generated_image := some ⟨PILImage.qrRender
            ⟨"hi", ECConst.ERROR_CORRECT_L, 10, 4, "black", "white"⟩⟩ }
        (Op.saveOp "a.png")).last_generated_image ≠ none :=
  ⟨(last_image_invariant 10 4 "Low (7%)"
      [Op.genOp "  " "black" "white", Op.genOp "hi" "black" "white",
       Op.saveOp "a.png"]).2.1,
   (last_image_invariant 10 4 "Low (7%)"
      [Op.genOp "  " "black" "white", Op.genOp "hi" "black" "white",
       Op.saveOp "a.png"]).2.2
     { box_size := 10, border := 4,
       error_correction := ECConst.ERROR_CORRECT_L,
       last_generated_image := some ⟨PILImage.qrRender
         ⟨"hi", ECConst.ERROR_CORRECT_L, 10, 4, "black", "white"⟩⟩ }
     (Op.saveOp "a.png") (by decide)⟩
